import Mathlib

set_option maxRecDepth 100000

/-!
Shallow embedding of the automatic email reply system (src/MAIN_1.py).

The Completion Service (the ChatGroq model behind every prompt), the vector
store retriever and the RetrievalQA generation step are external black boxes;
they are modelled as oracle fields of an `Env` record.  A model call either
returns text or raises, modelled as `Except Unit String`.  Prompt templates
are translated literally from the source; a chat prompt is a list of
(role, content) pairs.  The equipment table is modelled as a `List Equipment`
in insertion order; `session.query(...).filter_by(name=n).first()` is
`List.find?` and adding a row is appending.  Python `str.strip`, `str.lower`
and float `repr` (for the two-decimal prices stored in the catalog) are
modelled by `pyStrip`, `pyLower` and `pyFloatRepr`.  Database failures and
the autogenerated integer primary key are outside the model.
-/

namespace EmailReply

/-- Python `str.strip()` on ASCII whitespace: drop whitespace from both ends. -/
def pyStrip (s : String) : String :=
  ⟨((s.data.dropWhile Char.isWhitespace).reverse.dropWhile Char.isWhitespace).reverse⟩

/-- Python `str.lower()` restricted to ASCII letters (all category tokens are ASCII). -/
def pyLower (s : String) : String :=
  ⟨s.data.map Char.toLower⟩

/-- Python float `repr` for a non-negative price held in integer cents,
as produced for the two-decimal dollar amounts stored in the catalog
(`repr(850.0) = "850.0"`, `repr(49.99) = "49.99"`, `repr(50.5) = "50.5"`). -/
def pyFloatRepr (cents : Nat) : String :=
  let whole := cents / 100
  let frac := cents % 100
  if frac = 0 then toString whole ++ ".0"
  else if frac % 10 = 0 then toString whole ++ "." ++ toString (frac / 10)
  else if frac < 10 then toString whole ++ ".0" ++ toString frac
  else toString whole ++ "." ++ toString frac

/-- A row of the `equipment` table (class `Equipment`).  `price` is the float
column in integer cents; the autogenerated `id` primary key is omitted
(assigned by the store, never read by the program). -/
structure Equipment where
  name : String
  category : String
  price : Nat
  available : Bool
deriving DecidableEq, Repr

/-- A chat message: (role, content), as built by `ChatPromptTemplate`. -/
abbrev ChatMsg := String × String

/-- Oracles for the external collaborators: `llm` is one ChatGroq invocation
on a rendered prompt, `retrieve` is the vector store retriever on the query
text, and `qaRun` is the RetrievalQA "stuff" generation over the retrieved
chunks and the query (its internal prompt template belongs to the library,
not to this repository). -/
structure Env where
  llm : List ChatMsg → Except Unit String
  retrieve : String → List String
  qaRun : List String → String → Except Unit String

/-- System message of the classification prompt (verbatim from the source). -/
def classificationSystem : String :=
  "You are an AI assistant that classifies emails into four categories: \x27positive_review\x27, \x27negative_review\x27, \x27price_availability_inquiry\x27, or \x27general_inquiry\x27. Respond with ONLY the category name, nothing else."

/-- Human message of the classification prompt: an f-string, so the email text
is substituted directly into the triple-quoted template. -/
def classificationHuman (email_content : String) : String :=
  "\n    Classify the following email into one of these categories: \x27positive_review\x27, \x27negative_review\x27, \x27price_availability_inquiry\x27, or \x27general_inquiry\x27:\n\n    " ++ email_content ++ "\n\n    Classification:"

def classification_messages (email_content : String) : List ChatMsg :=
  [("system", classificationSystem), ("human", classificationHuman email_content)]

def extractionSystem : String :=
  "You are an AI assistant that extracts equipment names from emails."

def extractionHuman (email_content : String) : String :=
  "Extract the name of the film equipment mentioned in the following email:\n\n" ++ email_content ++ "\n\nEquipment name:"

def extraction_messages (email_content : String) : List ChatMsg :=
  [("system", extractionSystem), ("human", extractionHuman email_content)]

def positiveSystem : String :=
  "You are responding to a positive review about a film equipment rental service. Thank the customer and encourage them to share their experience on social media."

def positiveHuman (review : String) : String :=
  "Positive review: " ++ review ++ "\n\nResponse:"

def positive_messages (review : String) : List ChatMsg :=
  [("system", positiveSystem), ("human", positiveHuman review)]

/-- The negative-review prompt is built with `ChatPromptTemplate.from_template`,
which yields a single human message. -/
def negativeTemplate (review : String) : String :=
  "You are responding to a negative review about a film equipment rental service. Apologize for the inconvenience, offer a solution, and mention that a customer service representative will call them. Also, offer a gift voucher for their next rental. Review: " ++ review

def negative_messages (review : String) : List ChatMsg :=
  [("human", negativeTemplate review)]

/-- The four category tokens, in the order they appear in the regex
alternation `(positive_review|negative_review|price_availability_inquiry|general_inquiry)`. -/
def categoryTokens : List String :=
  ["positive_review", "negative_review", "price_availability_inquiry", "general_inquiry"]

/-- Does the token match at the start of the character list?  (One regex
alternative tried at one position.) -/
def tokenMatches : List Char → List Char → Bool
  | [], _ => true
  | _ :: _, [] => false
  | t :: ts, c :: cs => t = c && tokenMatches ts cs

/-- `re.search` over the alternation: scan positions left to right, trying the
alternatives in their listed order at each position; return the first match. -/
def searchTokens : List Char → Option String
  | [] => none
  | c :: cs =>
    match categoryTokens.find? (fun t => tokenMatches t.data (c :: cs)) with
    | some t => some t
    | none => searchTokens cs

/-- `re.search(r'(positive_review|negative_review|price_availability_inquiry|general_inquiry)', s)`,
returning the matched group. -/
def re_search_category (s : String) : Option String :=
  searchTokens s.data

/-- `classify_email`: one Completion Service call on the classification prompt;
`response.content.strip().lower()`, then regex extraction of the category;
`"error"` when there is no match or the call raises. -/
def classify_email (env : Env) (email_content : String) : String :=
  match env.llm (classification_messages email_content) with
  | Except.error _ => "error"
  | Except.ok content =>
    let raw_classification := pyLower (pyStrip content)
    match re_search_category raw_classification with
    | some classified_category => classified_category
    | none => "error"

/-- `extract_equipment_name`: one Completion Service call; returns
`response.content.strip()` verbatim, or `None` when the call raises. -/
def extract_equipment_name (env : Env) (email_content : String) : Option String :=
  match env.llm (extraction_messages email_content) with
  | Except.ok content => some (pyStrip content)
  | Except.error _ => none

/-- Fallback of `handle_price_availability_inquiry` when no (truthy) name was extracted. -/
def genericFallbackMsg : String :=
  "Thank you for your inquiry. We couldn\x27t find specific information about the equipment you mentioned. Please contact our customer service for further assistance."

/-- Apology of `handle_price_availability_inquiry` when the extracted name has no catalog row. -/
def noInfoMsg (equipment_name : String) : String :=
  "We\x27re sorry, but we don\x27t have information about " ++ equipment_name ++ " in our database. Please contact our customer service for more details."

/-- The formatted reply for a matched catalog row:
`f"The {equipment.name} is {availability} for rent at ${equipment.price} per day."`. -/
def foundMsg (equipment : Equipment) : String :=
  let availability := if equipment.available then "available" else "not available"
  "The " ++ equipment.name ++ " is " ++ availability ++ " for rent at $" ++ pyFloatRepr equipment.price ++ " per day."

/-- `handle_price_availability_inquiry`: extract a name; `if equipment_name:`
(Python truthiness, so `None` and `""` both fall through to the final return);
otherwise exact-name lookup `filter_by(name=equipment_name).first()`. -/
def handle_price_availability_inquiry (env : Env) (catalog : List Equipment)
    (email_content : String) : String :=
  match extract_equipment_name env email_content with
  | none => genericFallbackMsg
  | some equipment_name =>
    if equipment_name = "" then genericFallbackMsg
    else
      match catalog.find? (fun e => e.name = equipment_name) with
      | some equipment => foundMsg equipment
      | none => noInfoMsg equipment_name

/-- `handle_general_inquiry`: RetrievalQA "stuff" chain — retrieve chunks for
the email text, then one generation call over them; the chain result is
returned unmodified, and a generation failure propagates to the caller. -/
def handle_general_inquiry (env : Env) (email_content : String) : Except Unit String :=
  env.qaRun (env.retrieve email_content) email_content

/-- `handle_positive_review`: one Completion Service call; returns
`response.content.strip()`; a failure propagates to the caller. -/
def handle_positive_review (env : Env) (email_content : String) : Except Unit String :=
  match env.llm (positive_messages email_content) with
  | Except.ok content => Except.ok (pyStrip content)
  | Except.error e => Except.error e

/-- Static message of the `except` branch of `handle_email`. -/
def errorMsg : String :=
  "We encountered an error processing your email. A customer service representative will contact you shortly."

/-- Static message of the `else` (unrecognized category) branch of `handle_email`. -/
def forwardMsg : String :=
  "This email requires further evaluation and has been forwarded to our customer service team. They will contact you shortly."

/-- The dispatch chain of `handle_email` on the already-computed category
(in the source, the local variable `category`).  The surrounding
`try/except Exception` of `handle_email` is modelled by mapping a handler
failure to the static `("error", ...)` pair. -/
def dispatch (env : Env) (catalog : List Equipment) (email_content : String)
    (category : String) : String × String :=
  if category = "positive_review" then
    match handle_positive_review env email_content with
    | Except.ok r => (category, r)
    | Except.error _ => ("error", errorMsg)
  else if category = "negative_review" then
    match env.llm (negative_messages email_content) with
    | Except.ok response => (category, response)
    | Except.error _ => ("error", errorMsg)
  else if category = "price_availability_inquiry" then
    (category, handle_price_availability_inquiry env catalog email_content)
  else if category = "general_inquiry" then
    match handle_general_inquiry env email_content with
    | Except.ok response => (category, response)
    | Except.error _ => ("error", errorMsg)
  else
    ("forward_to_customer_service", forwardMsg)

/-- `handle_email`: classify, then dispatch; always returns one
`(category, response_text)` pair. -/
def handle_email (env : Env) (catalog : List Equipment) (email_content : String) :
    String × String :=
  dispatch env catalog email_content (classify_email env email_content)

/-- The rows built in `add_sample_data` (prices in cents). -/
def sample_equipment : List Equipment :=
  [ { name := "RED DSMC 2", category := "Cameras", price := 85000, available := true },
    { name := "Canon EF 24-70mm", category := "Lenses", price := 5000, available := true },
    { name := "DJI Ronin-S", category := "Stabilizers", price := 7500, available := false },
    { name := "ARRI SkyPanel S60-C", category := "Lighting", price := 20000, available := true } ]

/-- One loop iteration of `add_sample_data`: insert the row only if no row
with that name exists yet. -/
def seedStep (db : List Equipment) (equipment : Equipment) : List Equipment :=
  if db.any (fun e => e.name = equipment.name) then db else db ++ [equipment]

/-- `add_sample_data`: seed the four sample rows, each inserted only when its
name is absent. -/
def add_sample_data (db : List Equipment) : List Equipment :=
  sample_equipment.foldl seedStep db

/-! Concrete environments used to evaluate the model on specific scenarios.
`mkEnv` builds an environment whose ChatGroq oracle answers each of the four
prompt families with a fixed result, distinguished by the leading system
message (the negative-review prompt is the only one with no system message). -/

def mkEnv (cls ext pos neg : Except Unit String) (chunks : List String)
    (ans : Except Unit String) : Env :=
  { llm := fun ms =>
      match ms with
      | ("system", s) :: _ =>
        if s = classificationSystem then cls
        else if s = extractionSystem then ext
        else pos
      | _ => neg,
    retrieve := fun _ => chunks,
    qaRun := fun _ _ => ans }

/-- Model output is noisy text around an upper-case category token. -/
def envPosNoisy : Env :=
  mkEnv (Except.ok "  The category is: POSITIVE_REVIEW, thanks.  ")
    (Except.ok "") (Except.ok "") (Except.ok "") [] (Except.ok "")

/-- The Completion Service raises on the classification call. -/
def envClsFail : Env :=
  mkEnv (Except.error ()) (Except.ok "") (Except.ok "") (Except.ok "") [] (Except.ok "")

/-- Classification succeeds as positive_review, but the review-response call raises. -/
def envPosRaise : Env :=
  mkEnv (Except.ok "positive_review") (Except.ok "") (Except.error ()) (Except.ok "") []
    (Except.ok "")

/-- Classification succeeds as positive_review and the review completion succeeds. -/
def envPosOk : Env :=
  mkEnv (Except.ok "positive_review") (Except.ok "") (Except.ok "Thanks!") (Except.ok "") []
    (Except.ok "")

/-- Negative review; the response completion carries surrounding whitespace. -/
def envNegRaw : Env :=
  mkEnv (Except.ok "negative_review") (Except.ok "") (Except.ok "")
    (Except.ok "  We apologize.  ") [] (Except.ok "")

/-- Price inquiry; the extractor names the Canon lens exactly as seeded. -/
def envCanon : Env :=
  mkEnv (Except.ok "price_availability_inquiry") (Except.ok "Canon EF 24-70mm")
    (Except.ok "") (Except.ok "") [] (Except.ok "")

/-- Price inquiry; the extractor returns RED DSMC2, the seeded name has a space. -/
def envRED : Env :=
  mkEnv (Except.ok "price_availability_inquiry") (Except.ok "RED DSMC2")
    (Except.ok "") (Except.ok "") [] (Except.ok "")

/-- Price inquiry; the extraction call raises, so the extractor returns null. -/
def envExtractFail : Env :=
  mkEnv (Except.ok "price_availability_inquiry") (Except.error ())
    (Except.ok "") (Except.ok "") [] (Except.ok "")

/-- Price inquiry; the extraction completion is pure whitespace, stripping to "". -/
def envWsName : Env :=
  mkEnv (Except.ok "price_availability_inquiry") (Except.ok "   ")
    (Except.ok "") (Except.ok "") [] (Except.ok "")

/-- General inquiry; retrieval returns zero chunks, generation still answers. -/
def envEmptyRet : Env :=
  mkEnv (Except.ok "general_inquiry") (Except.ok "") (Except.ok "") (Except.ok "") []
    (Except.ok "Our FAQ does not cover this.")

/-- General inquiry; retrieval returns zero chunks and generation returns empty text. -/
def envEmptyAns : Env :=
  mkEnv (Except.ok "general_inquiry") (Except.ok "") (Except.ok "") (Except.ok "") []
    (Except.ok "")

/-! Helper lemmas. -/

/-- The regex search only ever yields one of the four alternation tokens. -/
lemma searchTokens_mem (cs : List Char) (r : String) (h : searchTokens cs = some r) :
    r ∈ categoryTokens := by
  induction cs with
  | nil => simp [searchTokens] at h
  | cons c cs ih =>
    rw [searchTokens] at h
    cases hf : categoryTokens.find? (fun t => tokenMatches t.data (c :: cs)) with
    | some t =>
      rw [hf] at h
      cases h
      exact List.mem_of_find?_eq_some hf
    | none =>
      rw [hf] at h
      exact ih h

/-- `classify_email` only ever returns a category token or the sentinel. -/
lemma classify_email_cases (env : Env) (email : String) :
    classify_email env email = "positive_review" ∨
    classify_email env email = "negative_review" ∨
    classify_email env email = "price_availability_inquiry" ∨
    classify_email env email = "general_inquiry" ∨
    classify_email env email = "error" := by
  unfold classify_email
  cases h : env.llm (classification_messages email) with
  | error e => simp
  | ok content =>
    cases hs : re_search_category (pyLower (pyStrip content)) with
    | none => simp [hs]
    | some r =>
      have hr := searchTokens_mem _ _ hs
      simp only [categoryTokens, List.mem_cons, List.not_mem_nil, or_false] at hr
      simp only [hs]
      rcases hr with h | h | h | h <;> simp [h]

/-- The dispatch chain either echoes its category argument or produces one of
the two static categories. -/
lemma dispatch_fst (env : Env) (catalog : List Equipment) (email c : String) :
    (dispatch env catalog email c).1 = c ∨ (dispatch env catalog email c).1 = "error" ∨
    (dispatch env catalog email c).1 = "forward_to_customer_service" := by
  unfold dispatch
  split_ifs with h1 h2 h3 h4
  · cases h : handle_positive_review env email <;> simp
  · cases h : env.llm (negative_messages email) <;> simp
  · simp
  · cases h : handle_general_inquiry env email <;> simp
  · simp

/-- On any category other than the four recognized ones, dispatch takes the
`else` branch. -/
lemma dispatch_else (env : Env) (catalog : List Equipment) (email c : String)
    (h1 : c ≠ "positive_review") (h2 : c ≠ "negative_review")
    (h3 : c ≠ "price_availability_inquiry") (h4 : c ≠ "general_inquiry") :
    dispatch env catalog email c = ("forward_to_customer_service", forwardMsg) := by
  unfold dispatch
  rw [if_neg h1, if_neg h2, if_neg h3, if_neg h4]

lemma any_seedStep (db : List Equipment) (e : Equipment) (p : Equipment → Bool)
    (h : db.any p = true) : (seedStep db e).any p = true := by
  unfold seedStep
  split
  · exact h
  · rw [List.any_append]
    simp [h]

lemma seedStep_self (db : List Equipment) (e : Equipment) :
    (seedStep db e).any (fun x => x.name = e.name) = true := by
  unfold seedStep
  split
  next h => exact h
  next h =>
    rw [List.any_append]
    simp

lemma foldl_any (l : List Equipment) (db : List Equipment) (p : Equipment → Bool)
    (h : db.any p = true) : (l.foldl seedStep db).any p = true := by
  induction l generalizing db with
  | nil => simpa using h
  | cons a l ih => exact ih _ (any_seedStep db a p h)

lemma foldl_name_present (l : List Equipment) (db : List Equipment) (e : Equipment)
    (h : e ∈ l) : (l.foldl seedStep db).any (fun x => x.name = e.name) = true := by
  induction l generalizing db with
  | nil => cases h
  | cons a l ih =>
    rcases List.mem_cons.mp h with h | h
    · subst h
      exact foldl_any l (seedStep db e) _ (seedStep_self db e)
    · exact ih (seedStep db a) h

lemma foldl_noop (l : List Equipment) (db : List Equipment)
    (h : ∀ e ∈ l, db.any (fun x => x.name = e.name) = true) :
    l.foldl seedStep db = db := by
  induction l with
  | nil => rfl
  | cons a l ih =>
    have ha : seedStep db a = db := by
      unfold seedStep
      rw [if_pos (h a (List.mem_cons_self a l))]
    rw [List.foldl_cons, ha]
    exact ih (fun e he => h e (List.mem_cons_of_mem a he))

/-! Claim theorems. -/

/-- Claim C1 (amended): handle_email always returns exactly one
(category, response_text) pair whose category is one of the four closed-set
values, "forward_to_customer_service", or "error" — never any other string.
When the classified category is not one of the four recognized values, the
result is exactly the static forward_to_customer_service pair; when
classification succeeds and the dispatched handler returns normally, the
result carries the classified category with the handler text; and when a
dispatched handler raises, the result is the static "error" pair.  (As
stated the claim is refuted: a successfully classified email whose handler
raises comes back with category "error", not the classified one of the
four.)  The price/availability handler is total here because database
failures are outside the model. -/
theorem handle_email_category_closed (env : Env) (catalog : List Equipment) (email : String) :
    ((handle_email env catalog email).1 = "positive_review" ∨
     (handle_email env catalog email).1 = "negative_review" ∨
     (handle_email env catalog email).1 = "price_availability_inquiry" ∨
     (handle_email env catalog email).1 = "general_inquiry" ∨
     (handle_email env catalog email).1 = "forward_to_customer_service" ∨
     (handle_email env catalog email).1 = "error")
    ∧ (classify_email env email ≠ "positive_review" →
       classify_email env email ≠ "negative_review" →
       classify_email env email ≠ "price_availability_inquiry" →
       classify_email env email ≠ "general_inquiry" →
       handle_email env catalog email = ("forward_to_customer_service", forwardMsg))
    ∧ (∀ t, classify_email env email = "positive_review" →
       handle_positive_review env email = Except.ok t →
       handle_email env catalog email = ("positive_review", t))
    ∧ (classify_email env email = "positive_review" →
       handle_positive_review env email = Except.error () →
       handle_email env catalog email = ("error", errorMsg))
    ∧ (∀ t, classify_email env email = "negative_review" →
       env.llm (negative_messages email) = Except.ok t →
       handle_email env catalog email = ("negative_review", t))
    ∧ (classify_email env email = "negative_review" →
       env.llm (negative_messages email) = Except.error () →
       handle_email env catalog email = ("error", errorMsg))
    ∧ (classify_email env email = "price_availability_inquiry" →
       handle_email env catalog email =
         ("price_availability_inquiry", handle_price_availability_inquiry env catalog email))
    ∧ (∀ t, classify_email env email = "general_inquiry" →
       handle_general_inquiry env email = Except.ok t →
       handle_email env catalog email = ("general_inquiry", t))
    ∧ (classify_email env email = "general_inquiry" →
       handle_general_inquiry env email = Except.error () →
       handle_email env catalog email = ("error", errorMsg)) := by
  refine ⟨?_, ?_, ?_, ?_, ?_, ?_, ?_, ?_, ?_⟩
  · unfold handle_email
    rcases dispatch_fst env catalog email (classify_email env email) with h | h | h
    · rcases classify_email_cases env email with h' | h' | h' | h' | h' <;>
        rw [h'] at h ⊢ <;> tauto
    · tauto
    · tauto
  · intro h1 h2 h3 h4
    unfold handle_email
    exact dispatch_else env catalog email _ h1 h2 h3 h4
  · intro t hc ht
    unfold handle_email dispatch
    rw [hc, if_pos rfl, ht]
  · intro hc ht
    unfold handle_email dispatch
    rw [hc, if_pos rfl, ht]
  · intro t hc ht
    unfold handle_email dispatch
    rw [hc, if_neg (by decide), if_pos rfl, ht]
  · intro hc ht
    unfold handle_email dispatch
    rw [hc, if_neg (by decide), if_pos rfl, ht]
  · intro hc
    unfold handle_email dispatch
    rw [hc, if_neg (by decide), if_neg (by decide), if_pos rfl]
  · intro t hc ht
    unfold handle_email dispatch
    rw [hc, if_neg (by decide), if_neg (by decide), if_neg (by decide), if_pos rfl, ht]
  · intro hc ht
    unfold handle_email dispatch
    rw [hc, if_neg (by decide), if_neg (by decide), if_neg (by decide), if_pos rfl, ht]

/-- Claim C1, witness: a failed classification lands in the
forward_to_customer_service branch; a classified positive review with a
normally-returning handler carries the classified category and handler
text; the same classification with a raising handler yields the static
error pair. -/
theorem handle_email_category_closed_witness :
    handle_email envClsFail [] "w1" = ("forward_to_customer_service", forwardMsg) ∧
    handle_email envPosOk [] "w1b" = ("positive_review", "Thanks!") ∧
    handle_email envPosRaise [] "w1c" = ("error", errorMsg) :=
  ⟨(handle_email_category_closed envClsFail [] "w1").2.1
     (by decide) (by decide) (by decide) (by decide),
   (handle_email_category_closed envPosOk [] "w1b").2.2.1 "Thanks!" (by decide) rfl,
   (handle_email_category_closed envPosRaise [] "w1c").2.2.2.1 (by decide) rfl⟩

/-- Claim C1, counterexample to the claim as stated: classification succeeds
with positive_review, yet the returned category is "error" (the review
completion raised), not one of the four closed-set values. -/
theorem handle_email_classified_not_returned :
    classify_email envPosRaise "c1" = "positive_review" ∧
    handle_email envPosRaise [] "c1" = ("error", errorMsg) := by
  constructor <;> decide

/-- Claim C2: classify_email lower-cases and strips the raw completion, takes
the first category token found by pattern search over the whole response, and
returns "error" when the call raises or no token matches — never any string
outside the closed vocabulary plus the sentinel. -/
theorem classify_email_contract (env : Env) (email : String) :
    (classify_email env email = "positive_review" ∨
     classify_email env email = "negative_review" ∨
     classify_email env email = "price_availability_inquiry" ∨
     classify_email env email = "general_inquiry" ∨
     classify_email env email = "error")
    ∧ (env.llm (classification_messages email) = Except.error () →
       classify_email env email = "error")
    ∧ (∀ raw, env.llm (classification_messages email) = Except.ok raw →
       classify_email env email =
         (re_search_category (pyLower (pyStrip raw))).getD "error") := by
  refine ⟨classify_email_cases env email, ?_, ?_⟩
  · intro h
    unfold classify_email
    rw [h]
  · intro raw h
    unfold classify_email
    rw [h]
    cases hs : re_search_category (pyLower (pyStrip raw)) <;> simp [hs]

/-- Claim C2, witness: noisy upper-case model output around the token still
classifies as positive_review. -/
theorem classify_email_contract_witness :
    classify_email envPosNoisy "w2" =
      (re_search_category
        (pyLower (pyStrip "  The category is: POSITIVE_REVIEW, thanks.  "))).getD "error" ∧
    (re_search_category
        (pyLower (pyStrip "  The category is: POSITIVE_REVIEW, thanks.  "))).getD "error" =
      "positive_review" :=
  ⟨(classify_email_contract envPosNoisy "w2").2.2 _ rfl, by decide⟩

/-- Claim C3 (amended): when the Completion Service raises on the
classification call, classify_email returns the sentinel "error" and the
Router therefore answers with the static forward_to_customer_service pair
(and never raises).  (As stated the claim is refuted: the returned category
is "forward_to_customer_service", not "error".) -/
theorem classification_failure_forwarded (env : Env) (catalog : List Equipment)
    (email : String) (h : env.llm (classification_messages email) = Except.error ()) :
    classify_email env email = "error" ∧
    handle_email env catalog email = ("forward_to_customer_service", forwardMsg) := by
  have hc : classify_email env email = "error" := by
    unfold classify_email
    rw [h]
  refine ⟨hc, ?_⟩
  unfold handle_email
  rw [hc]
  exact dispatch_else env catalog email "error" (by decide) (by decide) (by decide) (by decide)

/-- Claim C3, witness: concrete classification failure. -/
theorem classification_failure_forwarded_witness :
    handle_email envClsFail [] "w3" = ("forward_to_customer_service", forwardMsg) :=
  (classification_failure_forwarded envClsFail [] "w3" rfl).2

/-- Claim C3, counterexample to the claim as stated: on a classification-step
Completion failure the Router returns the forward_to_customer_service pair,
whose category is not "error". -/
theorem classification_failure_not_error_pair :
    handle_email envClsFail [] "c3" = ("forward_to_customer_service", forwardMsg) ∧
    (handle_email envClsFail [] "c3").1 ≠ "error" := by
  constructor <;> decide

/-- Claim C6 (amended): an email classified negative_review is answered by
the single negative-review completion, whose text is returned verbatim (not
stripped); a failure of that call yields the static "error" pair; and the
catalog plays no part in the outcome.  (As stated the claim is refuted: the
negative branch returns response.content without .strip().) -/
theorem negative_review_dispatch (env : Env) (catalog catalog' : List Equipment)
    (email : String) (h : classify_email env email = "negative_review") :
    (∀ t, env.llm (negative_messages email) = Except.ok t →
       handle_email env catalog email = ("negative_review", t))
    ∧ (env.llm (negative_messages email) = Except.error () →
       handle_email env catalog email = ("error", errorMsg))
    ∧ handle_email env catalog email = handle_email env catalog' email := by
  unfold handle_email dispatch
  rw [h]
  rw [if_neg (by decide), if_pos rfl]
  refine ⟨?_, ?_, rfl⟩
  · intro t ht
    rw [ht]
  · intro ht
    rw [ht]

/-- Claim C6, witness: the negative-review completion text comes back exactly
as produced, at every catalog. -/
theorem negative_review_dispatch_witness :
    handle_email envNegRaw sample_equipment "w6" = ("negative_review", "  We apologize.  ") :=
  (negative_review_dispatch envNegRaw sample_equipment [] "w6" (by decide)).1 _ rfl

/-- Claim C6, counterexample to the claim as stated: the returned negative
review response still carries its surrounding whitespace, so it is not the
stripped completion text. -/
theorem negative_review_untrimmed :
    handle_email envNegRaw [] "c6" = ("negative_review", "  We apologize.  ") ∧
    pyStrip "  We apologize.  " ≠ "  We apologize.  " := by
  constructor <;> decide

/-- Claim C4: an extracted name with an exact catalog match is answered with
the formatted availability/price sentence, the literal chosen by the boolean
availability column. -/
theorem price_inquiry_found (env : Env) (catalog : List Equipment) (email name : String)
    (e : Equipment)
    (h1 : extract_equipment_name env email = some name) (h2 : name ≠ "")
    (h3 : catalog.find? (fun x => x.name = name) = some e) :
    handle_price_availability_inquiry env catalog email =
      "The " ++ e.name ++ " is " ++ (if e.available then "available" else "not available") ++
        " for rent at $" ++ pyFloatRepr e.price ++ " per day." := by
  unfold handle_price_availability_inquiry
  simp only [h1]
  rw [if_neg h2, h3]
  rfl

/-- Claim C4, witness: the seeded Canon EF 24-70mm record yields the sentence
containing "available for rent at $50.0 per day". -/
theorem price_inquiry_found_witness :
    handle_price_availability_inquiry envCanon sample_equipment "w4" =
      "The Canon EF 24-70mm is" ++ " available for rent at $50.0 per day." := by
  have h := price_inquiry_found envCanon sample_equipment "w4" "Canon EF 24-70mm"
    { name := "Canon EF 24-70mm", category := "Lenses", price := 5000, available := true }
    (by decide) (by decide) (by decide)
  rw [h]
  decide

/-- Claim C5: the catalog lookup is exact-match only — an extracted name that
equals no catalog name verbatim takes the apology branch and reports no
price; in particular "RED DSMC2" does not match the seeded "RED DSMC 2". -/
theorem price_inquiry_exact_match_only (env : Env) (catalog : List Equipment)
    (email name : String)
    (h1 : extract_equipment_name env email = some name) (h2 : name ≠ "")
    (h3 : ∀ e, e ∈ catalog → e.name ≠ name) :
    handle_price_availability_inquiry env catalog email = noInfoMsg name := by
  have hf : catalog.find? (fun x => x.name = name) = none := by
    rw [List.find?_eq_none]
    intro x hx
    simpa using h3 x hx
  unfold handle_price_availability_inquiry
  simp only [h1]
  rw [if_neg h2, hf]

/-- Claim C5, witness: "RED DSMC2" misses the seeded catalog, whose record is
named "RED DSMC 2". -/
theorem price_inquiry_exact_match_only_witness :
    handle_price_availability_inquiry envRED sample_equipment "w5" = noInfoMsg "RED DSMC2" ∧
    ("RED DSMC2" : String) ≠ "RED DSMC 2" :=
  ⟨price_inquiry_exact_match_only envRED sample_equipment "w5" "RED DSMC2"
      (by decide) (by decide) (by decide),
   by decide⟩

/-- Claim C7: a null extraction yields the generic customer-service fallback,
and an extracted name with no exact catalog match yields the apology naming
that equipment; neither path is an error state. -/
theorem price_inquiry_miss_fallback (env : Env) (catalog : List Equipment) (email : String) :
    (extract_equipment_name env email = none →
       handle_price_availability_inquiry env catalog email = genericFallbackMsg)
    ∧ (∀ name, extract_equipment_name env email = some name → name ≠ "" →
       catalog.find? (fun x => x.name = name) = none →
       handle_price_availability_inquiry env catalog email = noInfoMsg name) := by
  constructor
  · intro h
    unfold handle_price_availability_inquiry
    rw [h]
  · intro name h1 h2 h3
    unfold handle_price_availability_inquiry
    simp only [h1]
    rw [if_neg h2, h3]

/-- Claim C7, witness: a raising extraction call produces the generic fallback. -/
theorem price_inquiry_miss_fallback_witness :
    handle_price_availability_inquiry envExtractFail sample_equipment "w7" =
      genericFallbackMsg :=
  (price_inquiry_miss_fallback envExtractFail sample_equipment "w7").1 (by decide)

/-- Claim C8: seeding inserts nothing when every sample name is already
present, seeding composed with seeding equals seeding, and seeding the empty
catalog leaves exactly one record per sample name. -/
theorem add_sample_data_idempotent (db : List Equipment) :
    ((∀ e, e ∈ sample_equipment → db.any (fun x => x.name = e.name) = true) →
       add_sample_data db = db)
    ∧ add_sample_data (add_sample_data db) = add_sample_data db
    ∧ (∀ e, e ∈ sample_equipment →
       ((add_sample_data []).filter (fun x => x.name = e.name)).length = 1) := by
  refine ⟨?_, ?_, ?_⟩
  · intro h
    exact foldl_noop _ _ h
  · exact foldl_noop _ _ (fun e he => foldl_name_present _ db e he)
  · decide

/-- Claim C8, witness: the double seed of the empty catalog equals the single
seed, which holds exactly one RED DSMC 2 record. -/
theorem add_sample_data_idempotent_witness :
    add_sample_data (add_sample_data []) = add_sample_data [] ∧
    ((add_sample_data []).filter (fun x => x.name = "RED DSMC 2")).length = 1 :=
  ⟨(add_sample_data_idempotent []).2.1,
   (add_sample_data_idempotent []).2.2
     { name := "RED DSMC 2", category := "Cameras", price := 85000, available := true }
     (by decide)⟩

/-- Claim C9 (amended): when retrieval returns zero chunks,
handle_general_inquiry still issues the generation call, over the empty
context, and returns its output unmodified.  (As stated the claim is refuted:
the output is returned unmodified even when it is the empty string, so the
result is not always non-empty.) -/
theorem general_inquiry_empty_retrieval (env : Env) (email : String)
    (h : env.retrieve email = []) :
    handle_general_inquiry env email = env.qaRun [] email := by
  unfold handle_general_inquiry
  rw [h]

/-- Claim C9, witness: zero retrieved chunks, generation still answers and the
answer is passed through. -/
theorem general_inquiry_empty_retrieval_witness :
    handle_general_inquiry envEmptyRet "w9" = envEmptyRet.qaRun [] "w9" ∧
    envEmptyRet.qaRun [] "w9" = Except.ok "Our FAQ does not cover this." :=
  ⟨general_inquiry_empty_retrieval envEmptyRet "w9" rfl, rfl⟩

/-- Claim C9, counterexample to the claim as stated: with zero chunks and an
empty generation output the handler returns the empty string. -/
theorem general_inquiry_can_return_empty :
    handle_general_inquiry envEmptyAns "c9" = Except.ok "" ∧ ("" : String).length = 0 :=
  ⟨rfl, rfl⟩

/-- Claim C10: an extraction that strips to the empty string is treated like a
null extraction — the generic fallback is returned and the catalog is never
consulted (the outcome is the same at every catalog). -/
theorem empty_extraction_no_lookup (env : Env) (email : String)
    (catalog catalog' : List Equipment)
    (h : extract_equipment_name env email = some "") :
    handle_price_availability_inquiry env catalog email = genericFallbackMsg ∧
    handle_price_availability_inquiry env catalog email =
      handle_price_availability_inquiry env catalog' email := by
  have k : ∀ cat : List Equipment,
      handle_price_availability_inquiry env cat email = genericFallbackMsg := by
    intro cat
    unfold handle_price_availability_inquiry
    simp only [h]
    exact if_pos trivial
  exact ⟨k catalog, (k catalog).trans (k catalog').symm⟩

/-- Claim C10, witness: a whitespace-only extraction completion strips to ""
and lands in the generic fallback on the seeded catalog. -/
theorem empty_extraction_no_lookup_witness :
    handle_price_availability_inquiry envWsName sample_equipment "w10" =
      genericFallbackMsg :=
  (empty_extraction_no_lookup envWsName "w10" sample_equipment [] (by decide)).1

end EmailReply
